import Mathlib

set_option maxHeartbeats 1000000
set_option maxRecDepth 4000

/-!
Shallow embedding of the CSE course chatbot (models.py, handlers.py,
strategies.py, providers.py, chatbot.py).

External collaborators (the rag4p content store and embedder, the Ollama
generation service, and Python's stringification of chunk lists) are modelled
as explicit function-valued parameters; everything else is translated directly
from the source.
-/

/-- Course record (`models.py`): immutable `id`, `title`, `description`. -/
structure Course where
  id : String
  title : String
  description : String
deriving DecidableEq

/-- Context chunk (the rag4p `Chunk` fields the chatbot constructs and reads:
document id, chunk id, total chunk count, text, and the `title`/`id`
properties stored by `_index_courses`). -/
structure Chunk where
  document_id : String
  chunk_id : String
  total_chunks : Nat
  chunk_text : String
  prop_title : String
  prop_id : String
deriving DecidableEq

/-- External content store collaborator: `find_relevant_chunks(query, k)`
returns an ordered chunk list. -/
structure ContentStore where
  find_relevant_chunks : String → Nat → List Chunk

/-- External collaborators invoked by the providers: the Ollama answer
generator (`OllamaAnswerGenerator.generate_answer(question, context)`) and
Python's `str()` applied to a list of chunk objects. -/
structure Externals where
  ollamaAnswer : String → String → String
  strChunkList : List Chunk → String

/-- The single-quote character, used by the simulated providers' templates. -/
def squote : String := String.mk [Char.ofNat 39]

/-- ASCII word character: the `\w` class deciding the regex word boundaries
`\b` in `CourseIdHandler._process`. -/
def isWordChar (c : Char) : Bool :=
  (decide (65 ≤ c.toNat) && decide (c.toNat ≤ 90)) ||
  (decide (97 ≤ c.toNat) && decide (c.toNat ≤ 122)) ||
  (decide (48 ≤ c.toNat) && decide (c.toNat ≤ 57)) ||
  decide (c.toNat = 95)

/-- The `\d` class: an ASCII decimal digit. -/
def isDigitChar (c : Char) : Bool :=
  decide (48 ≤ c.toNat) && decide (c.toNat ≤ 57)

/-- The `[1-4]` class of the id regex: a digit between 1 and 4. -/
def isLeadDigit (c : Char) : Bool :=
  decide (49 ≤ c.toNat) && decide (c.toNat ≤ 52)

/-- Character of a string at an index, with an out-of-range default. -/
def charAt (l : List Char) (i : Nat) : Char := l.getD i (Char.ofNat 32)

/-- A `\b` word boundary between the end of a candidate match and the rest of
the input: true at end of input or before a non-word character. -/
def boundaryAfter (l : List Char) : Bool :=
  match l with
  | [] => true
  | c :: _ => !isWordChar c

/-- Whether `\b([1-4]\d{3})\b` matches at the start of `l`, where `prevWord`
records whether the character immediately before `l` is a word character
(false at the start of the whole input). -/
def headIdMatch (prevWord : Bool) (l : List Char) : Bool :=
  match l with
  | c1 :: c2 :: c3 :: c4 :: rest =>
      !prevWord && isLeadDigit c1 && isDigitChar c2 && isDigitChar c3 &&
        isDigitChar c4 && boundaryAfter rest
  | _ => false

/-- The regex engine scan: try `\b([1-4]\d{3})\b` at each position from left
to right and return the first (leftmost) matched token. -/
def scanIdAux (prevWord : Bool) (l : List Char) : Option String :=
  match l with
  | [] => none
  | c :: rest =>
      if headIdMatch prevWord (c :: rest) then some (String.mk ((c :: rest).take 4))
      else scanIdAux (isWordChar c) rest

/-- Models `re.search(r'\b([1-4]\d{3})\b', query)` in
`CourseIdHandler._process`: the leftmost word-bounded 4-digit token whose
first digit is 1..4, if any. -/
def re_search_course_id (query : String) : Option String :=
  scanIdAux false query.data

/-- Positional characterisation of a match of `\b([1-4]\d{3})\b` at index `i`,
with `prevWord` describing the virtual character before index 0. -/
def IdMatchFrom (prevWord : Bool) (l : List Char) (i : Nat) : Prop :=
  i + 4 ≤ l.length ∧
  (if i = 0 then prevWord = false else isWordChar (charAt l (i - 1)) = false) ∧
  isLeadDigit (charAt l i) = true ∧
  isDigitChar (charAt l (i + 1)) = true ∧
  isDigitChar (charAt l (i + 2)) = true ∧
  isDigitChar (charAt l (i + 3)) = true ∧
  (i + 4 = l.length ∨ isWordChar (charAt l (i + 4)) = false)

instance (pw : Bool) (l : List Char) (i : Nat) : Decidable (IdMatchFrom pw l i) := by
  unfold IdMatchFrom; infer_instance

/-- A match of the id pattern at index `i` of the full input. -/
def IdMatchAt (l : List Char) (i : Nat) : Prop := IdMatchFrom false l i

/-- The four-character token starting at index `i`. -/
def tokenAt (l : List Char) (i : Nat) : String := String.mk ((l.drop i).take 4)

/-- Numeric value of a digit character. -/
def digitVal (c : Char) : Nat := c.toNat - 48

/-- Numeric value of the four digit characters starting at index `i`. -/
def fourDigitValueAt (l : List Char) (i : Nat) : Nat :=
  1000 * digitVal (charAt l i) + 100 * digitVal (charAt l (i + 1)) +
    10 * digitVal (charAt l (i + 2)) + digitVal (charAt l (i + 3))

/-- Spec-side characterisation of an id token occurrence: a word-bounded run
of exactly four digits whose numeric value lies in 1000..4999. -/
def SpecIdRunAt (l : List Char) (i : Nat) : Prop :=
  i + 4 ≤ l.length ∧
  isDigitChar (charAt l i) = true ∧
  isDigitChar (charAt l (i + 1)) = true ∧
  isDigitChar (charAt l (i + 2)) = true ∧
  isDigitChar (charAt l (i + 3)) = true ∧
  (i = 0 ∨ isWordChar (charAt l (i - 1)) = false) ∧
  (i + 4 = l.length ∨ isWordChar (charAt l (i + 4)) = false) ∧
  1000 ≤ fourDigitValueAt l i ∧ fourDigitValueAt l i ≤ 4999

/-- Python string containment (`needle in haystack`) on character lists. -/
def listContains (needle : List Char) : List Char → Bool
  | [] => needle.isEmpty
  | c :: t => needle.isPrefixOf (c :: t) || listContains needle t

/-- Python `needle in haystack` on strings. -/
def substrOf (needle haystack : String) : Bool :=
  listContains needle.data haystack.data

/-- Python `str.lower()` (ASCII model, as exercised by the catalog data). -/
def strLower (s : String) : String := String.mk (s.data.map Char.toLower)

/-- Python truthiness of a string: non-empty. -/
def pyTruthyStr (s : String) : Bool := !s.data.isEmpty

/-- Python truthiness of an `Optional[str]`: a non-empty string. -/
def pyTruthy : Option String → Bool
  | none => false
  | some s => pyTruthyStr s

/-- Python `str(context)[:100]`: the first 100 characters. -/
def pySlice100 (s : String) : String := String.mk (s.data.take 100)

/-- Retrieval strategies (`strategies.py`), with their constructor
parameters (`TopNStrategy.n`, `WindowStrategy.window_size`). -/
inductive Strategy where
  | topN (n : Nat)
  | window (window_size : Nat)
  | document
  | hierarchical
deriving DecidableEq

/-- `RetrievalStrategy.retrieve(query, content_store)` for each variant:
every variant returns `[]` on a `None` store; `TopNStrategy` asks for `n`
chunks, `WindowStrategy` and `HierarchicalStrategy` for 3, and
`DocumentStrategy` for 5. -/
def Strategy.retrieve (s : Strategy) (query : String)
    (content_store : Option ContentStore) : List Chunk :=
  match content_store with
  | none => []
  | some cs =>
      match s with
      | .topN n => cs.find_relevant_chunks query n
      | .window _ => cs.find_relevant_chunks query 3
      | .document => cs.find_relevant_chunks query 5
      | .hierarchical => cs.find_relevant_chunks query 3

/-- LLM providers (`providers.py`), with `OllamaProvider`'s constructor
parameters. -/
inductive Provider where
  | ollama (model : String) (host : String) (port : Nat)
  | openai
  | gemini
deriving DecidableEq

/-- The context preview computed by the simulated providers:
`str(context)[:100] if context else "No context"`. -/
def contextPreview (ext : Externals) (context : List Chunk) : String :=
  if context.isEmpty then "No context" else pySlice100 (ext.strChunkList context)

/-- `LLMProvider.generate_answer(question, context)` for each adapter.
`OllamaProvider` joins the chunk texts with newlines, delegates to the
external generator and prefixes its tag; the simulated OpenAI / Gemini
adapters return the deterministic template from the source. -/
def Provider.generate_answer (ext : Externals) (p : Provider) (question : String)
    (context : List Chunk) : String :=
  match p with
  | .ollama _ _ _ =>
      "[Ollama] " ++
        ext.ollamaAnswer question
          (String.intercalate "\n" (context.map Chunk.chunk_text))
  | .openai =>
      "[OpenAI] Answer for " ++
        (squote ++ (question ++ (squote ++ (" based on: " ++
          (contextPreview ext context ++ "...")))))
  | .gemini =>
      "[Gemini] Answer for " ++
        (squote ++ (question ++ (squote ++ (" based on: " ++
          (contextPreview ext context ++ "...")))))

/-- `CourseIdHandler._process` answer format. -/
def courseIdAnswer (c : Course) : String :=
  "Course " ++ (c.id ++ (": " ++ (c.title ++ (". Description: " ++ c.description))))

/-- `CourseIdHandler._process`: search for the id pattern; on a match, linear
scan of the catalog for the first course with exactly that id; `None`
otherwise (fall through). -/
def courseIdProcess (courses : List Course) (query : String) : Option String :=
  match re_search_course_id query with
  | some course_id =>
      match courses.find? (fun c => c.id == course_id) with
      | some c => some (courseIdAnswer c)
      | none => none
  | none => none

/-- `CourseTitleHandler._process` answer format. -/
def courseTitleAnswer (c : Course) : String :=
  "Found course by title: " ++
    (c.title ++ (". ID: " ++ (c.id ++ (". Description: " ++ c.description))))

/-- `CourseTitleHandler._process`: first catalog course whose lowercased
title is a substring of the lowercased query. -/
def courseTitleProcess (courses : List Course) (query : String) : Option String :=
  match courses.find? (fun c => substrOf (strLower c.title) (strLower query)) with
  | some c => some (courseTitleAnswer c)
  | none => none

/-- `SemanticHandler` state: its (optional) strategy and provider
references, mutated by the controller's swap operations. -/
structure SemanticHandler where
  strategy : Option Strategy
  provider : Option Provider
deriving DecidableEq

/-- `SemanticHandler._process`: retrieval then generation when strategy,
provider and content store are all set (truthy); `None` otherwise. -/
def semanticProcess (ext : Externals) (h : SemanticHandler) (query : String)
    (content_store : Option ContentStore) : Option String :=
  match h.strategy, h.provider, content_store with
  | some st, some pr, some cs =>
      some (Provider.generate_answer ext pr query
        (Strategy.retrieve st query (some cs)))
  | _, _, _ => none

/-- A node of the handler chain built by `_build_handler_chain`. -/
inductive Stage where
  | courseId
  | courseTitle
  | semantic (h : SemanticHandler)

/-- Dispatch `_process` of one chain node. -/
def stageProcess (ext : Externals) (courses : List Course) (s : Stage)
    (query : String) (content_store : Option ContentStore) : Option String :=
  match s with
  | .courseId => courseIdProcess courses query
  | .courseTitle => courseTitleProcess courses query
  | .semantic h => semanticProcess ext h query content_store

/-- The fixed default returned by `QueryHandler.handle` when the last handler
in the chain produces no truthy answer. -/
def fallbackMessage : String :=
  "Sorry, I couldn" ++ (squote ++ "t find an answer to your question.")

/-- `QueryHandler.handle` walked along the successor links: return the first
truthy `_process` result, otherwise defer to the successor; with no successor
left, return the fixed fallback message. -/
def handleChain (ext : Externals) (courses : List Course) :
    List Stage → String → Option ContentStore → String
  | [], _, _ => fallbackMessage
  | s :: rest, query, cs =>
      let result := stageProcess ext courses s query cs
      if pyTruthy result then result.getD "" else handleChain ext courses rest query cs

/-- First truthy element of a list of optional answers. -/
def firstTruthy : List (Option String) → Option String
  | [] => none
  | r :: rest => if pyTruthy r then r else firstTruthy rest

/-- `CSEChatbot` state: the catalog, the controller-visible active strategy
and provider, the semantic handler's own references, and the content store. -/
structure CSEChatbot where
  courses : List Course
  strategy : Strategy
  provider : Provider
  semantic : SemanticHandler
  store : Option ContentStore

/-- `CSEChatbot.__init__` wiring after the catalog and store are built:
default `TopNStrategy()` / `OllamaProvider()` and the fixed chain whose
terminal node shares both active policies. -/
def CSEChatbot.init (courses : List Course) (store : Option ContentStore) :
    CSEChatbot :=
  { courses := courses
    strategy := Strategy.topN 3
    provider := Provider.ollama "phi3" "localhost" 11434
    semantic :=
      { strategy := some (Strategy.topN 3)
        provider := some (Provider.ollama "phi3" "localhost" 11434) }
    store := store }

/-- `CSEChatbot.ask`: run the question through the fixed chain
id handler → title handler → semantic handler, against the bot's store. -/
def CSEChatbot.ask (ext : Externals) (bot : CSEChatbot) (question : String) :
    String :=
  handleChain ext bot.courses
    [Stage.courseId, Stage.courseTitle, Stage.semantic bot.semantic]
    question bot.store

/-- The strategy name table of `CSEChatbot.set_strategy`, including each
variant's default constructor arguments. -/
def strategyFromName (name : String) : Option Strategy :=
  if name == "top_n" then some (Strategy.topN 3)
  else if name == "window" then some (Strategy.window 1)
  else if name == "document" then some Strategy.document
  else if name == "hierarchical" then some Strategy.hierarchical
  else none

/-- The provider name table of `CSEChatbot.set_provider`, with
`OllamaProvider()` defaults. -/
def providerFromName (name : String) : Option Provider :=
  if name == "ollama" then some (Provider.ollama "phi3" "localhost" 11434)
  else if name == "openai" then some Provider.openai
  else if name == "gemini" then some Provider.gemini
  else none

/-- `CSEChatbot.set_strategy`: on a known name, replace both the controller's
strategy and the semantic handler's strategy reference; otherwise leave the
state unchanged. Returns the new state with the printed message. -/
def CSEChatbot.set_strategy (bot : CSEChatbot) (name : String) :
    CSEChatbot × String :=
  match strategyFromName name with
  | some st =>
      ({ bot with
          strategy := st
          semantic := { bot.semantic with strategy := some st } },
        "Strategy changed to: " ++ name)
  | none => (bot, "Unknown strategy: " ++ name)

/-- `CSEChatbot.set_provider`: on a known name, replace both the controller's
provider and the semantic handler's provider reference; otherwise leave the
state unchanged. Returns the new state with the printed message. -/
def CSEChatbot.set_provider (bot : CSEChatbot) (name : String) :
    CSEChatbot × String :=
  match providerFromName name with
  | some pr =>
      ({ bot with
          provider := pr
          semantic := { bot.semantic with provider := some pr } },
        "Provider changed to: " ++ name)
  | none => (bot, "Unknown provider: " ++ name)

/-- The fields `_load_courses` reads from one parsed JSON record
(`data['id']`, `data['title']`, `data['description']`). -/
structure CourseData where
  id : String
  title : String
  description : String

/-- Python `str.strip()`: remove surrounding whitespace. -/
def pyStrip (s : String) : String :=
  String.mk
    (((s.data.dropWhile Char.isWhitespace).reverse.dropWhile
        Char.isWhitespace).reverse)

/-- The line loop of `_load_courses`: parse each line with the external
`json.loads` (modelled by `jsonLoads`, whose `.error` outcome is the raised
`JSONDecodeError` / missing-key error) and collect `Course` records; a parse
error propagates out uncaught. -/
def parseCourseLines (jsonLoads : String → Except String CourseData) :
    List String → Except String (List Course)
  | [] => Except.ok []
  | line :: rest =>
      match jsonLoads (pyStrip line) with
      | Except.error e => Except.error e
      | Except.ok d =>
          match parseCourseLines jsonLoads rest with
          | Except.error e => Except.error e
          | Except.ok cs => Except.ok (Course.mk d.id d.title d.description :: cs)

/-- `CSEChatbot._load_courses`: the file is `none` when opening raises
`FileNotFoundError` (the only caught exception: warning printed, empty list
returned), and `some lines` otherwise. Returns the outcome together with the
printed warnings. -/
def load_courses (jsonLoads : String → Except String CourseData)
    (path : String) (file : Option (List String)) :
    Except String (List Course) × List String :=
  match file with
  | none => (Except.ok [], ["Warning: " ++ (path ++ " not found.")])
  | some lines => (parseCourseLines jsonLoads lines, [])

lemma string_data_append (s t : String) : (s ++ t).data = s.data ++ t.data := rfl

lemma isPrefixOf_append_self (l t : List Char) : l.isPrefixOf (l ++ t) = true := by
  induction l with
  | nil => simp [List.isPrefixOf]
  | cons c cs ih => simp [List.isPrefixOf, ih]

lemma listContains_self (a y : List Char) : listContains a (a ++ y) = true := by
  cases h : a ++ y with
  | nil =>
      rcases List.append_eq_nil.mp h with ⟨ha, _⟩
      subst ha
      simp [listContains]
  | cons c t =>
      have hp : a.isPrefixOf (a ++ y) = true := isPrefixOf_append_self a y
      rw [h] at hp
      rw [listContains, hp]
      rfl

lemma listContains_append_of (a x y : List Char)
    (h : listContains a y = true) : listContains a (x ++ y) = true := by
  induction x with
  | nil => simpa using h
  | cons c cs ih =>
      rw [List.cons_append, listContains, ih]
      exact Bool.or_true _

lemma listContains_mid (x a y : List Char) :
    listContains a (x ++ (a ++ y)) = true :=
  listContains_append_of a x (a ++ y) (listContains_self a y)

lemma pyTruthyStr_append_left (s t : String) (h : s.data.isEmpty = false) :
    pyTruthyStr (s ++ t) = true := by
  unfold pyTruthyStr
  rw [string_data_append]
  cases hs : s.data with
  | nil => rw [hs] at h; simp at h
  | cons c cs => simp

lemma charAt_cons_succ (c : Char) (t : List Char) (n : Nat) :
    charAt (c :: t) (n + 1) = charAt t n := rfl

lemma charAt_cons_zero (c : Char) (t : List Char) :
    charAt (c :: t) 0 = c := rfl

lemma idMatchFrom_succ (pw : Bool) (c : Char) (t : List Char) (i : Nat) :
    IdMatchFrom pw (c :: t) (i + 1) ↔ IdMatchFrom (isWordChar c) t i := by
  unfold IdMatchFrom
  cases i with
  | zero =>
      simp only [charAt_cons_succ, charAt_cons_zero, List.length_cons,
        Nat.zero_add, Nat.add_sub_cancel, if_neg (Nat.succ_ne_zero 0), if_pos rfl]
      constructor
      · rintro ⟨h1, h2, h3, h4, h5, h6, h7⟩
        refine ⟨by omega, h2, h3, h4, h5, h6, ?_⟩
        rcases h7 with h7 | h7
        · left; omega
        · right; exact h7
      · rintro ⟨h1, h2, h3, h4, h5, h6, h7⟩
        refine ⟨by omega, h2, h3, h4, h5, h6, ?_⟩
        rcases h7 with h7 | h7
        · left; omega
        · right; exact h7
  | succ j =>
      simp only [charAt_cons_succ, List.length_cons,
        Nat.add_sub_cancel, if_neg (Nat.succ_ne_zero (j+1)), if_neg (Nat.succ_ne_zero j)]
      constructor
      · rintro ⟨h1, h2, h3, h4, h5, h6, h7⟩
        refine ⟨by omega, h2, h3, h4, h5, h6, ?_⟩
        rcases h7 with h7 | h7
        · left; omega
        · right; exact h7
      · rintro ⟨h1, h2, h3, h4, h5, h6, h7⟩
        refine ⟨by omega, h2, h3, h4, h5, h6, ?_⟩
        rcases h7 with h7 | h7
        · left; omega
        · right; exact h7

lemma headIdMatch_iff (pw : Bool) (l : List Char) :
    headIdMatch pw l = true ↔ IdMatchFrom pw l 0 := by
  match l with
  | [] =>
      rw [show headIdMatch pw [] = false from rfl]
      simp only [Bool.false_eq_true, false_iff]
      rintro ⟨h1, -⟩
      simp at h1
  | [c1] =>
      rw [show headIdMatch pw [c1] = false from rfl]
      simp only [Bool.false_eq_true, false_iff]
      rintro ⟨h1, -⟩
      simp at h1
  | [c1, c2] =>
      rw [show headIdMatch pw [c1, c2] = false from rfl]
      simp only [Bool.false_eq_true, false_iff]
      rintro ⟨h1, -⟩
      simp at h1
  | [c1, c2, c3] =>
      rw [show headIdMatch pw [c1, c2, c3] = false from rfl]
      simp only [Bool.false_eq_true, false_iff]
      rintro ⟨h1, -⟩
      simp at h1
  | c1 :: c2 :: c3 :: c4 :: rest =>
      cases rest with
      | nil =>
          simp only [headIdMatch, IdMatchFrom, boundaryAfter, charAt_cons_succ,
            charAt_cons_zero, Bool.and_eq_true, Bool.not_eq_true', List.length_cons,
            if_pos rfl, Bool.and_true]
          constructor
          · rintro ⟨⟨⟨⟨hpw, h1⟩, h2⟩, h3⟩, h4⟩
            exact ⟨by omega, hpw, h1, h2, h3, h4, by left; rfl⟩
          · rintro ⟨-, hpw, h1, h2, h3, h4, -⟩
            exact ⟨⟨⟨⟨hpw, h1⟩, h2⟩, h3⟩, h4⟩
      | cons c5 rest2 =>
          simp only [headIdMatch, IdMatchFrom, boundaryAfter, charAt_cons_succ,
            charAt_cons_zero, Bool.and_eq_true, Bool.not_eq_true', List.length_cons,
            if_pos rfl]
          constructor
          · rintro ⟨⟨⟨⟨⟨hpw, h1⟩, h2⟩, h3⟩, h4⟩, h5⟩
            exact ⟨by omega, hpw, h1, h2, h3, h4, by right; exact h5⟩
          · rintro ⟨-, hpw, h1, h2, h3, h4, h5⟩
            refine ⟨⟨⟨⟨⟨hpw, h1⟩, h2⟩, h3⟩, h4⟩, ?_⟩
            rcases h5 with h5 | h5
            · omega
            · exact h5

lemma scanIdAux_eq_none (pw : Bool) (l : List Char) (h : scanIdAux pw l = none) :
    ∀ i, ¬ IdMatchFrom pw l i := by
  induction l generalizing pw with
  | nil =>
      intro i hm
      have h1 := hm.1
      simp only [List.length_nil] at h1
      omega
  | cons c t ih =>
      intro i hm
      rw [scanIdAux] at h
      by_cases hh : headIdMatch pw (c :: t) = true
      · rw [if_pos hh] at h; exact Option.noConfusion h
      · rw [if_neg hh] at h
        cases i with
        | zero => exact hh ((headIdMatch_iff pw (c :: t)).mpr hm)
        | succ j => exact ih (isWordChar c) h j ((idMatchFrom_succ pw c t j).mp hm)

lemma scanIdAux_eq_some (pw : Bool) (l : List Char) (t : String)
    (h : scanIdAux pw l = some t) :
    ∃ i, IdMatchFrom pw l i ∧ tokenAt l i = t ∧
      ∀ j, j < i → ¬ IdMatchFrom pw l j := by
  induction l generalizing pw with
  | nil => exact Option.noConfusion h
  | cons c rest ih =>
      rw [scanIdAux] at h
      by_cases hh : headIdMatch pw (c :: rest) = true
      · rw [if_pos hh] at h
        refine ⟨0, (headIdMatch_iff pw (c :: rest)).mp hh, ?_, ?_⟩
        · have he := Option.some.inj h
          simpa [tokenAt] using he
        · intro j hj; omega
      · rw [if_neg hh] at h
        rcases ih (isWordChar c) h with ⟨i, h1, h2, h3⟩
        refine ⟨i + 1, (idMatchFrom_succ pw c rest i).mpr h1, ?_, ?_⟩
        · simpa [tokenAt, List.drop_succ_cons] using h2
        · intro j hj
          cases j with
          | zero => exact fun hm => hh ((headIdMatch_iff pw (c :: rest)).mpr hm)
          | succ k =>
              exact fun hm =>
                h3 k (by omega) ((idMatchFrom_succ pw c rest k).mp hm)

lemma idMatchAt_iff_specIdRunAt (l : List Char) (i : Nat) :
    IdMatchAt l i ↔ SpecIdRunAt l i := by
  unfold IdMatchAt IdMatchFrom SpecIdRunAt
  constructor
  · rintro ⟨h1, h2, h3, h4, h5, h6, h7⟩
    unfold isLeadDigit at h3
    rw [Bool.and_eq_true, decide_eq_true_iff, decide_eq_true_iff] at h3
    unfold isDigitChar at h4 h5 h6 ⊢
    rw [Bool.and_eq_true, decide_eq_true_iff, decide_eq_true_iff] at h4 h5 h6
    refine ⟨h1, ?_, ?_, ?_, ?_, ?_, h7, ?_, ?_⟩
    · rw [Bool.and_eq_true, decide_eq_true_iff, decide_eq_true_iff]; omega
    · rw [Bool.and_eq_true, decide_eq_true_iff, decide_eq_true_iff]; omega
    · rw [Bool.and_eq_true, decide_eq_true_iff, decide_eq_true_iff]; omega
    · rw [Bool.and_eq_true, decide_eq_true_iff, decide_eq_true_iff]; omega
    · by_cases hi : i = 0
      · exact Or.inl hi
      · rw [if_neg hi] at h2; exact Or.inr h2
    · unfold fourDigitValueAt digitVal; omega
    · unfold fourDigitValueAt digitVal; omega
  · rintro ⟨h1, h2, h3, h4, h5, h6, h7, h8, h9⟩
    unfold isDigitChar at h2 h3 h4 h5
    rw [Bool.and_eq_true, decide_eq_true_iff, decide_eq_true_iff] at h2 h3 h4 h5
    unfold fourDigitValueAt digitVal at h8 h9
    refine ⟨h1, ?_, ?_, ?_, ?_, ?_, h7⟩
    · by_cases hi : i = 0
      · rw [if_pos hi]
      · rw [if_neg hi]
        rcases h6 with h6 | h6
        · exact absurd h6 hi
        · exact h6
    · unfold isLeadDigit
      rw [Bool.and_eq_true, decide_eq_true_iff, decide_eq_true_iff]
      omega
    · unfold isDigitChar
      rw [Bool.and_eq_true, decide_eq_true_iff, decide_eq_true_iff]; omega
    · unfold isDigitChar
      rw [Bool.and_eq_true, decide_eq_true_iff, decide_eq_true_iff]; omega
    · unfold isDigitChar
      rw [Bool.and_eq_true, decide_eq_true_iff, decide_eq_true_iff]; omega

instance (l : List Char) (i : Nat) : Decidable (IdMatchAt l i) :=
  inferInstanceAs (Decidable (IdMatchFrom false l i))

lemma listContains_self_nil (a : List Char) : listContains a a = true := by
  have h := listContains_self a []
  rwa [List.append_nil] at h

lemma string_append_assoc (a b c : String) : (a ++ b) ++ c = a ++ (b ++ c) := by
  cases a with
  | mk xa =>
      cases b with
      | mk xb =>
          cases c with
          | mk xc =>
              show String.mk ((xa ++ xb) ++ xc) = String.mk (xa ++ (xb ++ xc))
              rw [List.append_assoc]

/-- Claim C10: the identifier matcher's "defined numeric range" is exactly
1000–4999: `re.search(r'\b([1-4]\d{3})\b', q)` extracts a token if and only
if `q` contains a word-bounded run of exactly four digits whose numeric value
lies between 1000 and 4999; a 4-digit group inside a longer digit run, or one
outside that range, never matches. -/
theorem course_id_extracts_iff_bounded_run (q : String) :
    (re_search_course_id q).isSome = true ↔ ∃ i, SpecIdRunAt q.data i := by
  constructor
  · intro h
    rcases Option.isSome_iff_exists.mp h with ⟨t, ht⟩
    rcases scanIdAux_eq_some false q.data t ht with ⟨i, h1, -, -⟩
    exact ⟨i, (idMatchAt_iff_specIdRunAt q.data i).mp h1⟩
  · rintro ⟨i, hs⟩
    cases hscan : scanIdAux false q.data with
    | none =>
        exact absurd ((idMatchAt_iff_specIdRunAt q.data i).mpr hs)
          (scanIdAux_eq_none false q.data hscan i)
    | some t => simp [re_search_course_id, hscan]

/-- Witness for C10 at a concrete query. -/
theorem course_id_extracts_iff_bounded_run_witness :
    (∃ i, SpecIdRunAt ("Tell me about course 4361".data) i) ∧
    ((re_search_course_id "12345 0999 5000").isSome = true → False) :=
  ⟨(course_id_extracts_iff_bounded_run "Tell me about course 4361").mp (by decide),
   fun h => by
     rcases (course_id_extracts_iff_bounded_run "12345 0999 5000").mp h with ⟨i, hs⟩
     have hm := (idMatchAt_iff_specIdRunAt ("12345 0999 5000".data) i).mpr hs
     have hn : scanIdAux false ("12345 0999 5000".data) = none := by decide
     exact scanIdAux_eq_none false ("12345 0999 5000".data) hn i hm⟩

/-- Claim C6: `WindowStrategy.retrieve` and `HierarchicalStrategy.retrieve`
equal a single top-3 lookup (`TopNStrategy` with K = 3) and
`DocumentStrategy.retrieve` a single top-5 lookup, for every query and
store; no other logic runs. -/
theorem degenerate_strategies_single_topk (w : Nat) (q : String)
    (cs : Option ContentStore) :
    (Strategy.window w).retrieve q cs = (Strategy.topN 3).retrieve q cs ∧
    Strategy.hierarchical.retrieve q cs = (Strategy.topN 3).retrieve q cs ∧
    Strategy.document.retrieve q cs = (Strategy.topN 5).retrieve q cs ∧
    ∀ store : ContentStore,
      (Strategy.window w).retrieve q (some store) =
          store.find_relevant_chunks q 3 ∧
      Strategy.hierarchical.retrieve q (some store) =
          store.find_relevant_chunks q 3 ∧
      Strategy.document.retrieve q (some store) =
          store.find_relevant_chunks q 5 := by
  refine ⟨?_, ?_, ?_, fun store => ⟨rfl, rfl, rfl⟩⟩ <;> cases cs <;> rfl

/-- Claim C8: every strategy variant returns the empty sequence on a
`None` store, with no failure (the operations are total). -/
theorem retrieve_none_store_empty (q : String) (n w : Nat) :
    (Strategy.topN n).retrieve q none = [] ∧
    (Strategy.window w).retrieve q none = [] ∧
    Strategy.document.retrieve q none = [] ∧
    Strategy.hierarchical.retrieve q none = [] ∧
    ∀ s : Strategy, s.retrieve q none = [] :=
  ⟨rfl, rfl, rfl, rfl, fun _ => rfl⟩

/-- Claim C9: the identifier stage considers only the leftmost id-like token:
the extracted token is the one at the least matching index, it alone is looked
up, and when it matches no course the stage falls through. -/
theorem course_id_leftmost_token_only (courses : List Course) (q t : String)
    (hscan : re_search_course_id q = some t)
    (hmiss : ∀ c ∈ courses, c.id ≠ t) :
    courseIdProcess courses q = none ∧
    ∃ i, IdMatchAt q.data i ∧ tokenAt q.data i = t ∧
      ∀ j, j < i → ¬ IdMatchAt q.data j := by
  constructor
  · have hfind : courses.find? (fun c => c.id == t) = none := by
      rw [List.find?_eq_none]
      intro c hc
      simpa using hmiss c hc
    simp [courseIdProcess, hscan, hfind]
  · exact scanIdAux_eq_some false q.data t hscan

/-- Catalog used by the C9 witness: a course whose id equals the second
id-like token of the query, not the first. -/
def coursesLater : List Course := [Course.mk "2222" "Databases" "Tables and queries"]

/-- Witness for C9: in "1111 2222" only the leftmost token "1111" is looked
up; the stage falls through even though the later token "2222" is id-like and
matches a catalog course. -/
theorem course_id_leftmost_token_only_witness :
    courseIdProcess coursesLater "1111 2222" = none ∧
    IdMatchAt ("1111 2222".data) 5 ∧
    tokenAt ("1111 2222".data) 5 = "2222" ∧
    (∃ c ∈ coursesLater, c.id = "2222") ∧
    ∃ i, IdMatchAt ("1111 2222".data) i ∧ tokenAt ("1111 2222".data) i = "1111" ∧
      ∀ j, j < i → ¬ IdMatchAt ("1111 2222".data) j := by
  have h := course_id_leftmost_token_only coursesLater "1111 2222" "1111"
    (by decide) (by decide)
  exact ⟨h.1, by decide, by decide, by decide, h.2⟩

lemma handleChain_eq_firstTruthy (ext : Externals) (courses : List Course)
    (stages : List Stage) (q : String) (cs : Option ContentStore) :
    handleChain ext courses stages q cs =
      (firstTruthy (stages.map (fun s => stageProcess ext courses s q cs))).getD
        fallbackMessage := by
  induction stages with
  | nil => rfl
  | cons s rest ih =>
      simp only [handleChain, List.map_cons, firstTruthy]
      cases hr : stageProcess ext courses s q cs with
      | none => simpa [pyTruthy] using ih
      | some a =>
          cases hb : pyTruthyStr a with
          | false => simpa [pyTruthy, hb] using ih
          | true => simp [pyTruthy, hb]

/-- Claim C2 (amended): ask returns the answer of the first stage, tried in
the fixed order identifier → title → semantic, that produces a truthy
(non-empty) answer — the result is fully determined by the earliest truthy
stage — and when all stages fail the fixed fallback message
"Sorry, I couldn't find an answer to your question." is returned. -/
theorem ask_first_truthy_stage (ext : Externals) (bot : CSEChatbot) (q : String) :
    CSEChatbot.ask ext bot q =
      (firstTruthy [courseIdProcess bot.courses q, courseTitleProcess bot.courses q,
        semanticProcess ext bot.semantic q bot.store]).getD fallbackMessage := by
  have h := handleChain_eq_firstTruthy ext bot.courses
    [Stage.courseId, Stage.courseTitle, Stage.semantic bot.semantic] q bot.store
  simpa [stageProcess, CSEChatbot.ask] using h

/-- Trivial external collaborators used by concrete instances: the Ollama
generator and the chunk-list stringification both return "". -/
def extTrivial : Externals := Externals.mk (fun _ _ => "") (fun _ => "")

/-- A chatbot with an empty catalog and no content store. -/
def botNoStore : CSEChatbot := CSEChatbot.init [] none

/-- Claim C2 counterexample: when every stage fails, ask returns the code's
fixed message "Sorry, I couldn't find an answer to your question.", which is
not the string "no answer found". -/
theorem chain_fallback_message_counterexample :
    courseIdProcess botNoStore.courses "hello" = none ∧
    courseTitleProcess botNoStore.courses "hello" = none ∧
    semanticProcess extTrivial botNoStore.semantic "hello" botNoStore.store = none ∧
    CSEChatbot.ask extTrivial botNoStore "hello" = fallbackMessage ∧
    CSEChatbot.ask extTrivial botNoStore "hello" ≠ "no answer found" := by
  refine ⟨rfl, rfl, rfl, rfl, ?_⟩
  decide

/-- Claim C1 (amended): whenever the identifier stage's extracted token (the
leftmost word-bounded in-range 4-digit token) matches some catalog course,
ask returns that course's formatted answer, which contains the course's title
and description — regardless of the store, strategy and provider. -/
theorem ask_extracted_id_answer (ext : Externals) (bot : CSEChatbot)
    (q t : String) (c : Course)
    (hscan : re_search_course_id q = some t)
    (hfind : bot.courses.find? (fun cc => cc.id == t) = some c) :
    CSEChatbot.ask ext bot q = courseIdAnswer c ∧
    substrOf c.title (CSEChatbot.ask ext bot q) = true ∧
    substrOf c.description (CSEChatbot.ask ext bot q) = true := by
  have hid : courseIdProcess bot.courses q = some (courseIdAnswer c) := by
    simp [courseIdProcess, hscan, hfind]
  have htruthy : pyTruthyStr (courseIdAnswer c) = true := by
    unfold courseIdAnswer
    exact pyTruthyStr_append_left _ _ (by decide)
  have hask : CSEChatbot.ask ext bot q = courseIdAnswer c := by
    simp [CSEChatbot.ask, handleChain, stageProcess, hid, pyTruthy, htruthy]
  refine ⟨hask, ?_, ?_⟩
  · rw [hask]
    unfold substrOf courseIdAnswer
    simp only [string_data_append]
    exact listContains_append_of _ _ _ (listContains_append_of _ _ _
      (listContains_append_of _ _ _ (listContains_self _ _)))
  · rw [hask]
    unfold substrOf courseIdAnswer
    simp only [string_data_append]
    exact listContains_append_of _ _ _ (listContains_append_of _ _ _
      (listContains_append_of _ _ _ (listContains_append_of _ _ _
        (listContains_append_of _ _ _ (listContains_self_nil _)))))

/-- The course of the test scenario "Tell me about course 4361". -/
def courseSDP : Course :=
  Course.mk "4361" "Software Design Patterns" "Design patterns in software engineering"

/-- A chatbot over that one-course catalog with an always-empty store. -/
def botSDP : CSEChatbot :=
  CSEChatbot.init [courseSDP] (some (ContentStore.mk (fun _ _ => [])))

/-- Witness for C1 (amended) at the spec's example scenario. -/
theorem ask_extracted_id_answer_witness :
    CSEChatbot.ask extTrivial botSDP "Tell me about course 4361" =
      courseIdAnswer courseSDP ∧
    substrOf "Software Design Patterns"
      (CSEChatbot.ask extTrivial botSDP "Tell me about course 4361") = true ∧
    substrOf "Design patterns in software engineering"
      (CSEChatbot.ask extTrivial botSDP "Tell me about course 4361") = true := by
  have h := ask_extracted_id_answer extTrivial botSDP "Tell me about course 4361"
    "4361" courseSDP (by decide) (by decide)
  exact ⟨h.1, h.2.1, h.2.2⟩

/-- Catalog of the C1 counterexample: the course id "2222" occurs in the
query only after a non-matching id-like token. -/
def courseQB : Course :=
  Course.mk "2222" "Quantum Basketweaving" "Advanced weaving methods"

/-- Chatbot over that catalog with an always-empty store. -/
def botQB : CSEChatbot :=
  CSEChatbot.init [courseQB] (some (ContentStore.mk (fun _ _ => [])))

/-- Claim C1 counterexample: the query "1111 2222" contains the in-range
4-digit substring "2222" (even as a word-bounded id-like token) equal to the
id of a catalog course, yet the answer contains neither that course's title
nor its description — the identifier stage only looked up the leftmost token
"1111". -/
theorem ask_id_substring_counterexample :
    substrOf "2222" "1111 2222" = true ∧
    IdMatchAt ("1111 2222".data) 5 ∧
    tokenAt ("1111 2222".data) 5 = "2222" ∧
    (∃ c ∈ botQB.courses, c.id = "2222") ∧
    substrOf "Quantum Basketweaving"
      (CSEChatbot.ask extTrivial botQB "1111 2222") = false ∧
    substrOf "Advanced weaving methods"
      (CSEChatbot.ask extTrivial botQB "1111 2222") = false := by
  decide

/-- Claim C3: for a query with no id token matching any catalog course, when
some catalog course's title occurs case-insensitively in the query, ask
returns the title-stage answer of the first such course in catalog order,
and that answer contains the course's id. -/
theorem ask_title_substring_answer (ext : Externals) (bot : CSEChatbot)
    (q : String) (c : Course)
    (hnoid : ∀ t, re_search_course_id q = some t → ∀ cc ∈ bot.courses, cc.id ≠ t)
    (hfind : bot.courses.find?
      (fun cc => substrOf (strLower cc.title) (strLower q)) = some c) :
    CSEChatbot.ask ext bot q = courseTitleAnswer c ∧
    substrOf c.id (CSEChatbot.ask ext bot q) = true := by
  have hid : courseIdProcess bot.courses q = none := by
    cases hscan : re_search_course_id q with
    | none => simp [courseIdProcess, hscan]
    | some t =>
        have hnone : bot.courses.find? (fun cc => cc.id == t) = none := by
          rw [List.find?_eq_none]
          intro cc hcc
          simpa using hnoid t hscan cc hcc
        simp [courseIdProcess, hscan, hnone]
  have htitle : courseTitleProcess bot.courses q = some (courseTitleAnswer c) := by
    simp [courseTitleProcess, hfind]
  have htruthy : pyTruthyStr (courseTitleAnswer c) = true := by
    unfold courseTitleAnswer
    exact pyTruthyStr_append_left _ _ (by decide)
  have hask : CSEChatbot.ask ext bot q = courseTitleAnswer c := by
    simp [CSEChatbot.ask, handleChain, stageProcess, hid, htitle, pyTruthy, htruthy]
  refine ⟨hask, ?_⟩
  rw [hask]
  unfold substrOf courseTitleAnswer
  simp only [string_data_append]
  exact listContains_append_of _ _ _ (listContains_append_of _ _ _
    (listContains_append_of _ _ _ (listContains_self _ _)))

/-- The course of the test scenario "What is Data Structures?". -/
def courseDS : Course := Course.mk "2320" "Data Structures" "Lists trees and graphs"

/-- Chatbot over that one-course catalog with an always-empty store. -/
def botDS : CSEChatbot :=
  CSEChatbot.init [courseDS] (some (ContentStore.mk (fun _ _ => [])))

/-- Witness for C3 at the spec's example scenario. -/
theorem ask_title_substring_answer_witness :
    CSEChatbot.ask extTrivial botDS "What is Data Structures?" =
      courseTitleAnswer courseDS ∧
    substrOf "2320" (CSEChatbot.ask extTrivial botDS "What is Data Structures?") =
      true := by
  have h1 : ∀ t, re_search_course_id "What is Data Structures?" = some t →
      ∀ cc ∈ botDS.courses, cc.id ≠ t := by
    intro t ht
    rw [show re_search_course_id "What is Data Structures?" = none from by decide] at ht
    exact Option.noConfusion ht
  exact ask_title_substring_answer extTrivial botDS "What is Data Structures?"
    courseDS h1 (by decide)

/-- The consistency invariant of C4: the semantic (terminal) handler's
references agree with the controller's active strategy and provider. -/
def policyRefsConsistent (bot : CSEChatbot) : Prop :=
  bot.semantic.strategy = some bot.strategy ∧
  bot.semantic.provider = some bot.provider

/-- Claim C4: a known strategy/provider name updates the controller's active
policy and the terminal handler's reference together to the same new policy,
touching nothing else; an unknown name is a no-op that leaves the whole state
unchanged and yields the rejection message; and the controller/terminal-node
consistency invariant is preserved by both operations. -/
theorem set_strategy_set_provider_contract (bot : CSEChatbot) (name : String) :
    (∀ st, strategyFromName name = some st →
      (bot.set_strategy name).1.strategy = st ∧
      (bot.set_strategy name).1.semantic.strategy = some st ∧
      (bot.set_strategy name).1.semantic.provider = bot.semantic.provider ∧
      (bot.set_strategy name).1.provider = bot.provider ∧
      (bot.set_strategy name).1.courses = bot.courses ∧
      (bot.set_strategy name).1.store = bot.store) ∧
    (strategyFromName name = none →
      (bot.set_strategy name).1 = bot ∧
      (bot.set_strategy name).2 = "Unknown strategy: " ++ name) ∧
    (∀ pr, providerFromName name = some pr →
      (bot.set_provider name).1.provider = pr ∧
      (bot.set_provider name).1.semantic.provider = some pr ∧
      (bot.set_provider name).1.semantic.strategy = bot.semantic.strategy ∧
      (bot.set_provider name).1.strategy = bot.strategy ∧
      (bot.set_provider name).1.courses = bot.courses ∧
      (bot.set_provider name).1.store = bot.store) ∧
    (providerFromName name = none →
      (bot.set_provider name).1 = bot ∧
      (bot.set_provider name).2 = "Unknown provider: " ++ name) ∧
    (policyRefsConsistent bot →
      policyRefsConsistent (bot.set_strategy name).1 ∧
      policyRefsConsistent (bot.set_provider name).1) := by
  refine ⟨?_, ?_, ?_, ?_, ?_⟩
  · intro st h
    simp [CSEChatbot.set_strategy, h]
  · intro h
    simp [CSEChatbot.set_strategy, h]
  · intro pr h
    simp [CSEChatbot.set_provider, h]
  · intro h
    simp [CSEChatbot.set_provider, h]
  · intro hc
    constructor
    · cases h : strategyFromName name with
      | none => simpa [CSEChatbot.set_strategy, h] using hc
      | some st =>
          exact ⟨by simp [CSEChatbot.set_strategy, h],
            by simpa [CSEChatbot.set_strategy, h] using hc.2⟩
    · cases h : providerFromName name with
      | none => simpa [CSEChatbot.set_provider, h] using hc
      | some pr =>
          exact ⟨by simpa [CSEChatbot.set_provider, h] using hc.1,
            by simp [CSEChatbot.set_provider, h]⟩

/-- Witness for C4: swapping to "window" updates both references to the same
new policy; "bogus" is rejected and changes nothing. -/
theorem set_strategy_set_provider_contract_witness :
    (botSDP.set_strategy "window").1.strategy = Strategy.window 1 ∧
    (botSDP.set_strategy "window").1.semantic.strategy = some (Strategy.window 1) ∧
    (botSDP.set_strategy "bogus").1 = botSDP ∧
    (botSDP.set_strategy "bogus").2 = "Unknown strategy: " ++ "bogus" ∧
    (botSDP.set_provider "openai").1.provider = Provider.openai ∧
    (botSDP.set_provider "openai").1.semantic.provider = some Provider.openai ∧
    (botSDP.set_provider "foo").1 = botSDP ∧
    policyRefsConsistent (botSDP.set_strategy "window").1 := by
  have hw := set_strategy_set_provider_contract botSDP "window"
  have hb := set_strategy_set_provider_contract botSDP "bogus"
  have ho := set_strategy_set_provider_contract botSDP "openai"
  have hf := set_strategy_set_provider_contract botSDP "foo"
  refine ⟨(hw.1 (Strategy.window 1) (by decide)).1,
    (hw.1 (Strategy.window 1) (by decide)).2.1,
    (hb.2.1 (by decide)).1,
    (hb.2.1 (by decide)).2,
    (ho.2.2.1 Provider.openai (by decide)).1,
    (ho.2.2.1 Provider.openai (by decide)).2.1,
    (hf.2.2.2.1 (by decide)).1,
    (hw.2.2.2.2 ⟨rfl, rfl⟩).1⟩

/-- Models `json.loads` on a malformed line: it raises `JSONDecodeError`
(here, returns the error outcome) for every input. -/
def badJsonLoads : String → Except String CourseData :=
  fun _ => Except.error "json.decoder.JSONDecodeError"

/-- Claim C5 counterexample: a malformed line does not yield an empty catalog
with a warning — the parse error propagates out of `_load_courses` uncaught
(only `FileNotFoundError` is caught), aborting construction. -/
theorem load_courses_malformed_counterexample :
    (load_courses badJsonLoads "courses.jsonl" (some ["this is not JSON"])).1 =
      Except.error "json.decoder.JSONDecodeError" ∧
    (load_courses badJsonLoads "courses.jsonl" (some ["this is not JSON"])).1 ≠
      Except.ok [] ∧
    (load_courses badJsonLoads "courses.jsonl" (some ["this is not JSON"])).2 = [] := by
  refine ⟨rfl, ?_, rfl⟩
  intro h
  rw [show (load_courses badJsonLoads "courses.jsonl" (some ["this is not JSON"])).1 =
    Except.error "json.decoder.JSONDecodeError" from rfl] at h
  exact Except.noConfusion h

/-- Claim C5 (amended): a missing source is a soft failure — empty catalog,
warning emitted, no abort — and the chatbot then continues with no matchable
courses (both exact-match stages always fall through on an empty catalog);
a malformed line, however, propagates the parse error. -/
theorem load_courses_missing_soft_failure
    (jsonLoads : String → Except String CourseData) (path : String) :
    load_courses jsonLoads path none =
      (Except.ok [], ["Warning: " ++ (path ++ " not found.")]) ∧
    (∀ q, courseIdProcess [] q = none ∧ courseTitleProcess [] q = none) ∧
    ∀ line rest e, jsonLoads (pyStrip line) = Except.error e →
      (load_courses jsonLoads path (some (line :: rest))).1 = Except.error e := by
  refine ⟨rfl, ?_, ?_⟩
  · intro q
    constructor
    · cases h : re_search_course_id q with
      | none => simp [courseIdProcess, h]
      | some t => simp [courseIdProcess, h]
    · rfl
  · intro line rest e h
    simp [load_courses, parseCourseLines, h]

/-- Witness for C5 (amended), at a concrete path, parser and file. -/
theorem load_courses_missing_soft_failure_witness :
    load_courses badJsonLoads "courses.jsonl" none =
      (Except.ok [], ["Warning: " ++ ("courses.jsonl" ++ " not found.")]) ∧
    courseIdProcess [] "Tell me about course 4361" = none ∧
    (load_courses badJsonLoads "courses.jsonl" (some ["oops"])).1 =
      Except.error "json.decoder.JSONDecodeError" := by
  have h := load_courses_missing_soft_failure badJsonLoads "courses.jsonl"
  exact ⟨h.1, (h.2.1 "Tell me about course 4361").1,
    h.2.2 "oops" [] "json.decoder.JSONDecodeError" rfl⟩

/-- Claim C7: the simulated OpenAI and Gemini adapters are deterministic,
tag their answers with their backend marker, embed at most the first 100
characters of the context stringification, and render an empty context as
the placeholder "No context" instead of failing. -/
theorem simulated_providers_template (ext : Externals) (q : String)
    (ctx : List Chunk) :
    Provider.generate_answer ext Provider.openai q ctx =
      Provider.generate_answer ext Provider.openai q ctx ∧
    Provider.generate_answer ext Provider.gemini q ctx =
      Provider.generate_answer ext Provider.gemini q ctx ∧
    (∃ r, Provider.generate_answer ext Provider.openai q ctx = "[OpenAI] " ++ r) ∧
    (∃ r, Provider.generate_answer ext Provider.gemini q ctx = "[Gemini] " ++ r) ∧
    (ctx = [] →
      Provider.generate_answer ext Provider.openai q ctx =
        "[OpenAI] Answer for " ++
          (squote ++ (q ++ (squote ++ (" based on: " ++ ("No context" ++ "..."))))) ∧
      Provider.generate_answer ext Provider.gemini q ctx =
        "[Gemini] Answer for " ++
          (squote ++ (q ++ (squote ++ (" based on: " ++ ("No context" ++ "...")))))) ∧
    (ctx ≠ [] →
      (contextPreview ext ctx).data.length ≤ 100 ∧
      (∃ rest, (ext.strChunkList ctx).data = (contextPreview ext ctx).data ++ rest) ∧
      substrOf (contextPreview ext ctx)
        (Provider.generate_answer ext Provider.openai q ctx) = true ∧
      substrOf (contextPreview ext ctx)
        (Provider.generate_answer ext Provider.gemini q ctx) = true) := by
  have hopenai : Provider.generate_answer ext Provider.openai q ctx =
      "[OpenAI] Answer for " ++
        (squote ++ (q ++ (squote ++ (" based on: " ++
          (contextPreview ext ctx ++ "..."))))) := rfl
  have hgemini : Provider.generate_answer ext Provider.gemini q ctx =
      "[Gemini] Answer for " ++
        (squote ++ (q ++ (squote ++ (" based on: " ++
          (contextPreview ext ctx ++ "..."))))) := rfl
  refine ⟨rfl, rfl, ?_, ?_, ?_, ?_⟩
  · refine ⟨"Answer for " ++
      (squote ++ (q ++ (squote ++ (" based on: " ++
        (contextPreview ext ctx ++ "..."))))), ?_⟩
    rw [hopenai,
      show ("[OpenAI] Answer for " : String) = "[OpenAI] " ++ "Answer for " from by decide,
      string_append_assoc]
  · refine ⟨"Answer for " ++
      (squote ++ (q ++ (squote ++ (" based on: " ++
        (contextPreview ext ctx ++ "..."))))), ?_⟩
    rw [hgemini,
      show ("[Gemini] Answer for " : String) = "[Gemini] " ++ "Answer for " from by decide,
      string_append_assoc]
  · intro h
    subst h
    exact ⟨rfl, rfl⟩
  · intro h
    have hne : ctx.isEmpty = false := by
      cases ctx with
      | nil => exact absurd rfl h
      | cons c t => rfl
    have hp : contextPreview ext ctx = pySlice100 (ext.strChunkList ctx) := by
      simp [contextPreview, hne]
    refine ⟨?_, ?_, ?_, ?_⟩
    · rw [hp]
      simp only [pySlice100, List.length_take]
      exact Nat.min_le_left _ _
    · rw [hp]
      exact ⟨(ext.strChunkList ctx).data.drop 100,
        (List.take_append_drop 100 _).symm⟩
    · rw [hopenai]
      unfold substrOf
      simp only [string_data_append]
      exact listContains_append_of _ _ _ (listContains_append_of _ _ _
        (listContains_append_of _ _ _ (listContains_append_of _ _ _
          (listContains_append_of _ _ _ (listContains_self _ _)))))
    · rw [hgemini]
      unfold substrOf
      simp only [string_data_append]
      exact listContains_append_of _ _ _ (listContains_append_of _ _ _
        (listContains_append_of _ _ _ (listContains_append_of _ _ _
          (listContains_append_of _ _ _ (listContains_self _ _)))))

/-- External collaborators for the C7 witness: the chunk-list
stringification returns a fixed dump. -/
def extPreview : Externals :=
  Externals.mk (fun _ _ => "") (fun _ => "chunk text dump")

/-- A concrete chunk for the C7 witness. -/
def chunkEx : Chunk :=
  Chunk.mk "4361" "0" 1 "Software Design Patterns: patterns"
    "Software Design Patterns" "4361"

/-- Witness for C7 at concrete inputs: empty context yields the
"No context" template, and a non-empty context embeds a bounded preview. -/
theorem simulated_providers_template_witness :
    Provider.generate_answer extPreview Provider.openai "hi" [] =
      "[OpenAI] Answer for " ++
        (squote ++ ("hi" ++ (squote ++ (" based on: " ++ ("No context" ++ "..."))))) ∧
    (contextPreview extPreview [chunkEx]).data.length ≤ 100 ∧
    substrOf (contextPreview extPreview [chunkEx])
      (Provider.generate_answer extPreview Provider.openai "hi" [chunkEx]) = true ∧
    substrOf (contextPreview extPreview [chunkEx])
      (Provider.generate_answer extPreview Provider.gemini "hi" [chunkEx]) = true := by
  have h0 := simulated_providers_template extPreview "hi" ([] : List Chunk)
  have h1 := simulated_providers_template extPreview "hi" [chunkEx]
  have hne : ([chunkEx] : List Chunk) ≠ [] := by decide
  exact ⟨(h0.2.2.2.2.1 rfl).1, (h1.2.2.2.2.2 hne).1,
    (h1.2.2.2.2.2 hne).2.2.1, (h1.2.2.2.2.2 hne).2.2.2⟩
